import Mathlib

/-!
Verification of the RAG dispatch and session-context layer of a D&D helper
chat bot.  The embedded code comes from `src/app.py` (session store,
message dispatcher, `split_message`) and `src/ollama.py` (`OllamaClient`:
prompt templates, the vector-retrieval operation `_retrieve_rag_context`,
and the generation call in `generate_response`).  External effects
(HTTP calls, the chroma vector store, the chat transport) are modelled as
explicit environments; Python exceptions are modelled with `Except`.
-/

set_option maxRecDepth 20000

/-! ## String helpers mirroring Python's `str` primitives

Python strings are sequences of code points; Lean's `String.data` gives the
same view, so the helpers below are defined over `List Char`. -/

/-- The whitespace characters stripped by Python's `str.strip`/`str.rstrip`
(the ASCII ones, which are the only ones the modelled code can encounter). -/
def isPySpace (c : Char) : Bool :=
  c = ' ' || c = '\t' || c = '\n' || c = '\x0b' || c = '\x0c' || c = '\r'

/-- `str.lstrip()` on the character list. -/
def lstripL (l : List Char) : List Char := l.dropWhile isPySpace

/-- `str.rstrip()` on the character list. -/
def rstripL (l : List Char) : List Char := (l.reverse.dropWhile isPySpace).reverse

/-- Python `s.strip()`. -/
def pyStrip (s : String) : String := ⟨rstripL (lstripL s.data)⟩

/-- Python `s.rstrip()`. -/
def pyRstrip (s : String) : String := ⟨rstripL s.data⟩

/-- Python `s[:n]` (slicing counts code points, like `List.take`). -/
def pyTake (s : String) (n : Nat) : String := ⟨s.data.take n⟩

/-- Python `text.split("\n")` on the character list: no collapsing of empty
fields, `[""] ` for the empty string. -/
def splitOnNl : List Char → List (List Char)
  | [] => [[]]
  | c :: cs =>
    if c = '\n' then [] :: splitOnNl cs
    else
      match splitOnNl cs with
      | [] => [[c]]
      | l :: ls => (c :: l) :: ls

/-- Python `text.split("\n")` at the `String` level. -/
def pySplitLines (s : String) : List String := (splitOnNl s.data).map String.mk

/-- Python `sep.join(parts)`. -/
def joinSep (sep : String) : List String → String
  | [] => ""
  | x :: xs => xs.foldl (fun acc d => acc ++ sep ++ d) x

/-- Whether `pat` is an initial segment of `l` (used to state substring
facts about the assembled prompts). -/
def leadsWith : List Char → List Char → Bool
  | [], _ => true
  | _ :: _, [] => false
  | p :: ps, c :: cs => p = c && leadsWith ps cs

/-- Whether `pat` occurs contiguously somewhere in `l`: the substring test
used to state which section names appear in a prompt. -/
def containsSeg (pat : List Char) : List Char → Bool
  | [] => leadsWith pat []
  | c :: cs => leadsWith pat (c :: cs) || containsSeg pat cs

/-- String-level wrapper for `containsSeg`. -/
def strContains (s pat : String) : Bool := containsSeg pat.data s.data

/-! ## Session Store (`app.py`, `user_sessions` / class `UserSession`)

`user_sessions : Dict[int, Dict[str, str]]` maps a user id to a dict with
the keys `"section"` and `"content"`; every write stores both keys, so an
entry is modelled as a two-field structure.  The static rules text
`RULES_TEXT_PART1/2/3` lives in `src/texts.py`, which is not part of the
sources; all definitions and theorems are therefore parametrised by the
three parts, which is enough because no modelled behaviour depends on
their value. -/

structure SessionEntry where
  sectionName : String
  content : String
deriving DecidableEq, Repr

/-- The `user_sessions` dictionary, as a map from user id to entry. -/
def SessionStore : Type := Nat → Option SessionEntry

/-- The initial empty `user_sessions = {}`. -/
def emptyStore : SessionStore := fun _ => none

/-- `UserSession.set_section` (app.py:1192): overwrites the user's entry
with a fresh two-key dict. -/
def set_section (store : SessionStore) (user_id : Nat)
    (sectionName content : String) : SessionStore :=
  fun uid => if uid = user_id then some ⟨sectionName, content⟩ else store uid

/-- `UserSession.get_current_section` (app.py:1199): returns the stored
pair, defaulting to `("rules", RULES_TEXT_PART1 + RULES_TEXT_PART2 +
RULES_TEXT_PART3)` when the user has no entry.  Total: it never fails. -/
def get_current_section (p1 p2 p3 : String) (store : SessionStore)
    (user_id : Nat) : String × String :=
  match store user_id with
  | some e => (e.sectionName, e.content)
  | none => ("rules", p1 ++ p2 ++ p3)

/-- A finite sequence of `set_section` calls for one user, applied in
order. -/
def apply_sets (store : SessionStore) (user_id : Nat)
    (calls : List (String × String)) : SessionStore :=
  calls.foldl (fun st c => set_section st user_id c.1 c.2) store

/-! ## Prompt templates (`ollama.py`, `OllamaClient.generate_response`)

The two f-strings of `generate_response`, split at their interpolation
points.  `groundedInstructions` / `plainInstructions` are the instruction
blocks (from `ИНСТРУКЦИИ:` to the end of the last numbered item) of each
template, spliced back verbatim into the template definitions. -/

/-- Instruction block of the grounded (RAG) template, ollama.py:257-261. -/
def groundedInstructions : String :=
  "ИНСТРУКЦИИ:\n1. Используй информацию из базы данных выше для ответа на вопрос.\n2. Ответь кратко, понятно и дружелюбно на русском.\n3. Приводи конкретные примеры из полученной информации.\n4. Если информация неполная или вопрос выходит за рамки раздела, предложи открыть соответствующий раздел."

/-- Instruction block of the plain template, ollama.py:275-285 (the
template lines carry a four-space indent inside the f-string). -/
def plainInstructions : String :=
  "    ИНСТРУКЦИИ:\n    1. Если вопрос пользователя относится к содержимому этого раздела - ответь на него кратко, понятно и дружелюбно на русском.\n    2. Если вопрос НЕ об этом разделе - предложи открыть соответствующий раздел (укажи его название) НАЗВАНИЯ РАЗДЕЛОВ(/races — список доступных рас,\n        /classes — список классов персонажей,\n        /rules — основные правила D&D,\n        /dice — всё о бросках кубиков,\n        /combat — правила боя для новичков,\n        /spells — базовая информация о заклинаниях,\n        /glossary — словарь терминов D&D,\n        /stats — объяснение характеристик).\n    3. Всегда приводи примеры из D&D когда это уместно."

/-- The grounded f-string of ollama.py:243-266. -/
def grounded_prompt (section_name rag_context section_content user_message : String) : String :=
  "Ты помощник по D&D для новичков.\n\nРАЗДЕЛ: " ++ section_name
  ++ "\n\nРЕЛЕВАНТНАЯ ИНФОРМАЦИЯ ИЗ БАЗЫ ДАННЫХ:\n" ++ rag_context
  ++ "\n\n---\n\nБАЗОВАЯ ИНФОРМАЦИЯ РАЗДЕЛА:\n" ++ section_content
  ++ "\n\n---\n\n" ++ groundedInstructions
  ++ "\n\nВОПРОС ПОЛЬЗОВАТЕЛЯ:\n" ++ user_message
  ++ "\n\nОТВЕТ:"

/-- The plain f-string of ollama.py:268-290. -/
def plain_prompt (section_name section_content user_message : String) : String :=
  "Ты помощник по D&D для новичков.\n\n    КОНТЕКСТ ТЕКУЩЕГО РАЗДЕЛА \"" ++ section_name
  ++ "\":\n    " ++ section_content
  ++ "\n\n    ---\n\n" ++ plainInstructions
  ++ "\n\n    ВОПРОС ПОЛЬЗОВАТЕЛЯ:\n    " ++ user_message
  ++ "\n\n    ОТВЕТ:"

/-- The canonical section names of the spec, as they appear (or not) in
the templates. -/
def canonicalSectionNames : List String :=
  ["/races", "/classes", "/rules", "/dice", "/combat", "/spells", "/glossary", "/stats"]

/-! ## Language Model Client (`ollama.py`, the `requests.post` tail of
`generate_response`, lines 292-311) -/

/-- Outcome of the single `requests.post` to `/api/generate`:
a response with a status code and the JSON `"response"` field (defaulted
to `""` by `.get`), a `requests.exceptions.ConnectionError`, or any other
exception with its rendered text. -/
inductive GenOutcome where
  | httpResponse (status : Nat) (payload : String)
  | connectionError
  | otherError (msg : String)

/-- ollama.py:309. -/
def connectionErrorMessage : String :=
  "❌ Ошибка подключения к Ollama. Убедись, что сервис запущен."

/-- ollama.py:311, `f"❌ Ошибка: {e}"`. -/
def otherErrorMessage (e : String) : String := "❌ Ошибка: " ++ e

/-- The `try/except` tail of `generate_response`: on status 200 the
trimmed `"response"` field, on a non-200 status `None`, and the two
exception branches each manufacture a user-facing string. -/
def llm_complete : GenOutcome → Option String
  | .httpResponse status payload =>
    if status = 200 then some (pyStrip payload) else none
  | .connectionError => some connectionErrorMessage
  | .otherError e => some (otherErrorMessage e)

/-! ## Response delivery (`app.py`, `handle_message` lines 1232-1248) -/

/-- One `reply_text` attempt: with `parse_mode=HTML` (formatted) or
without (plain). -/
inductive Sent where
  | formatted (text : String)
  | plain (text : String)
deriving DecidableEq, Repr

/-- The transport: which outbound sends raise (Telegram rejecting the
message). -/
structure Transport where
  formattedFails : String → Bool
  plainFails : String → Bool

/-- app.py:1246. -/
def noResponseMessage : String :=
  "❌ Не удалось получить ответ. Проверь подключение к Ollama."

/-- app.py:1243. -/
def deliveryApology : String :=
  "❌ Произошла ошибка при отправке ответа. Попробуйте позже."

/-- app.py:1239: `response[:4000] if len(response) > 4000 else response`. -/
def truncatedResponse (r : String) : String :=
  if 4000 < r.length then pyTake r 4000 else r

/-- The delivery logic of `handle_message` (app.py:1232-1248), recorded as
the ordered list of `reply_text` attempts.  `if response:` is Python
truthiness, so `None` and `""` both take the generic-message branch. -/
def deliver_response (t : Transport) (response : Option String) : List Sent :=
  match response with
  | none => [.plain noResponseMessage]
  | some r =>
    if r = "" then [.plain noResponseMessage]
    else if t.formattedFails r = false then [.formatted r]
    else if t.plainFails (truncatedResponse r) = false then
      [.formatted r, .plain (truncatedResponse r)]
    else
      [.formatted r, .plain (truncatedResponse r), .plain deliveryApology]

/-! ## Vector Retrieval Client (`ollama.py`, `OllamaClient._retrieve_rag_context`)

The chroma store, the embedding endpoint and their failure modes are an
explicit environment; a raised Python exception is `Except.error`.  The
outer `try/except` of `_retrieve_rag_context` is the catch-all boundary
that converts any escaping exception to `""`. -/

/-- A Python exception (the code only distinguishes raised/not raised). -/
inductive PyErr where
  | exn
deriving DecidableEq, Repr

/-- A chroma collection handle: its stored documents, whether
`collection.count()` raises, and the outcomes of
`collection.query(query_texts=...)` / `collection.query(query_embeddings=...)`
as functions of the requested `n_results` (the value is the `"documents"`
field of the result dict, `none` when absent). -/
structure Collection where
  contents : List String
  countRaises : Bool
  queryTexts : Nat → Except PyErr (Option (List (List String)))
  queryEmbeddings : Nat → Except PyErr (Option (List (List String)))

/-- One domain's persistent client: outcomes of
`get_collection("dnd_<domain>")`, `get_collection("<domain>")` and
`get_or_create_collection(...)`. -/
structure DomainDb where
  lookupPrimary : Except PyErr Collection
  lookupSecondary : Except PyErr Collection
  getOrCreate : Except PyErr Collection

/-- The retrieval environment: whether the embedding call produces an
embedding (on failure `OllamaEmbeddingFunction.__call__` swallows the
error and returns `[]`, so `[query])[0]` raises `IndexError`), and the
three optional chroma clients (`none` when the data directory was absent
and `_init_chroma_clients` left the client as `None`). -/
structure RagEnv where
  embedOk : Bool
  races : Option DomainDb
  spells : Option DomainDb
  classes : Option DomainDb

/-- The `if/elif/elif/else` dispatch of ollama.py:97-149: the domain's
client, or `none` when the tag is unknown or the client was never
initialized (both cases `return ""`). -/
def resolveClient (env : RagEnv) (section_type : String) : Option DomainDb :=
  if section_type = "races" then env.races
  else if section_type = "spells" then env.spells
  else if section_type = "classes" then env.classes
  else none

/-- The collection-resolution loop: try the primary name, then the
secondary, then `get_or_create_collection` (whose exception escapes to the
outer handler). -/
def resolveCollection (d : DomainDb) : Except PyErr Collection :=
  match d.lookupPrimary with
  | .ok c => .ok c
  | .error _ =>
    match d.lookupSecondary with
    | .ok c => .ok c
    | .error _ => d.getOrCreate

/-- ollama.py:176: `n_results = min(5, count) if count > 0 else 5`. -/
def nResults (count : Nat) : Nat := if 0 < count then min 5 count else 5

/-- The `n_results` value `_retrieve_rag_context` actually passes to
`collection.query` (ollama.py:154-176): the `count` fed to `nResults` is
the collection's size when `collection.count()` succeeded and 0 when it
raised (the exception is swallowed and `count` keeps its initial 0). -/
def requestedResults (c : Collection) : Nat :=
  nResults (if c.countRaises then 0 else c.contents.length)

/-- The document-formatting tail of `_retrieve_rag_context`
(ollama.py:195-214): `if results and results.get("documents") and
len(results["documents"]) > 0`, then the non-falsy entries of
`results["documents"][0]`; every other shape yields no documents. -/
def formatDocs : Option (List (List String)) → List String
  | some (ds :: _) => ds.filter (fun doc => doc ≠ "")
  | _ => []

/-- The body of `_retrieve_rag_context` (ollama.py:90-214), returning the
list `context_parts` of retrieved documents; every `return ""` of the
source is `return []` here (the source's string result is exactly the
`"\n\n---\n\n"`-join of this list on every path, see
`retrieve_rag_context`).  An uncaught exception is `Except.error`. -/
def retrieveDocsExc (env : RagEnv) (query : String) (section_type : String) :
    Except PyErr (List String) :=
  -- query_embedding = embedding_func([query])[0] : IndexError when the
  -- embedding call failed and the list is empty
  if env.embedOk = false then .error PyErr.exn
  else
    match resolveClient env section_type with
    | none => .ok []
    | some d =>
      match resolveCollection d with
      | .error e => .error e
      | .ok coll =>
        -- count = 0; try: count = collection.count(); if count == 0:
        -- return "" except: pass (count stays 0, no early return)
        if coll.countRaises = false && coll.contents.length = 0 then .ok []
        else
          -- query_texts first, query_embeddings as fallback, then return ""
          match coll.queryTexts (requestedResults coll) with
          | .ok r => .ok (formatDocs r)
          | .error _ =>
            match coll.queryEmbeddings (requestedResults coll) with
            | .ok r => .ok (formatDocs r)
            | .error _ => .ok []

/-- The outer `try/except` boundary of `_retrieve_rag_context`: any
escaping exception becomes the empty document list. -/
def retrieve_rag_docs (env : RagEnv) (query : String) (section_type : String) :
    List String :=
  match retrieveDocsExc env query section_type with
  | .ok ds => ds
  | .error _ => []

/-- ollama.py:201, `"\n\n---\n\n".join(context_parts)`. -/
def ragSeparator : String := "\n\n---\n\n"

/-- `OllamaClient._retrieve_rag_context` as the caller sees it: the
formatted context string ( `""` on every degraded path, since
`joinSep sep [] = ""`). -/
def retrieve_rag_context (env : RagEnv) (query : String) (section_type : String) :
    String :=
  joinSep ragSeparator (retrieve_rag_docs env query section_type)

/-! ## `OllamaClient.generate_response` (ollama.py:222-311) and the
dispatcher `handle_message` (app.py:1207-1248) -/

/-- Result of one `generate_response` call, instrumented with the prompt
it assembled and whether it invoked the retrieval client (the source
calls `_retrieve_rag_context` exactly when `use_rag` is truthy). -/
structure GenResult where
  prompt : String
  result : Option String
  ragInvoked : Bool
deriving Repr

/-- `OllamaClient.generate_response`: optional retrieval, template choice
(`if use_rag and rag_context:` — Python truthiness of the string), then
the generation call, modelled by `server : prompt → GenOutcome`. -/
def generate_response (env : RagEnv) (server : String → GenOutcome)
    (user_message section_name section_content : String)
    (use_rag : Bool) (rag_section_type : String) : GenResult :=
  let rag_context := if use_rag then retrieve_rag_context env user_message rag_section_type else ""
  let prompt :=
    if use_rag && !(rag_context = "") then
      grounded_prompt section_name rag_context section_content user_message
    else
      plain_prompt section_name section_content user_message
  { prompt := prompt, result := llm_complete (server prompt), ragInvoked := use_rag }

/-- The RAG-eligible sections of app.py:1219. -/
def ragSections : List String := ["races", "spells", "classes"]

/-- `handle_message` (app.py:1207-1248) for an inbound free-text message:
read the session, compute `use_rag = section_name in ["races", "spells",
"classes"]`, call `generate_response`, deliver.  Returns the instrumented
generation result and the ordered delivery attempts. -/
def handle_message (p1 p2 p3 : String) (store : SessionStore) (env : RagEnv)
    (server : String → GenOutcome) (t : Transport)
    (user_id : Nat) (user_message : String) : GenResult × List Sent :=
  let sc := get_current_section p1 p2 p3 store user_id
  let use_rag := ragSections.contains sc.1
  let rag_section_type := if use_rag then sc.1 else ""
  let g := generate_response env server user_message sc.1 sc.2 use_rag rag_section_type
  (g, deliver_response t g.result)

/-! ## `split_message` (app.py:287-310) -/

/-- One iteration of the `for paragraph in text.split("\n")` loop of
`split_message`: state is `(parts, current)`. -/
def splitStep (limit : Nat) (acc : List String × String) (para : String) :
    List String × String :=
  let p := pyRstrip para
  let extra := p.length + (if acc.2 = "" then 0 else 1)
  if acc.2.length + extra ≤ limit then
    (acc.1, if acc.2 = "" then p else acc.2 ++ "\n" ++ p)
  else
    ((if acc.2 = "" then acc.1 else acc.1 ++ [acc.2]), p)

/-- The epilogue of `split_message`: `if current: parts.append(current)`. -/
def finalizeSplit (st : List String × String) : List String :=
  if st.2 = "" then st.1 else st.1 ++ [st.2]

/-- `split_message(text, limit=4000)` (app.py:287-310): split a long
message at line boundaries.  The source's default `limit` is 4000; it is
passed explicitly here. -/
def split_message (text : String) (limit : Nat) : List String :=
  if text.length ≤ limit then [text]
  else finalizeSplit ((pySplitLines text).foldl (splitStep limit) ([], ""))

/-! ## General lemmas -/

lemma data_inj {s t : String} (h : s.data = t.data) : s = t :=
  congrArg String.mk h

lemma length_data (s : String) : s.length = s.data.length := rfl

lemma string_ne_empty_of_length {s : String} (h : 0 < s.length) : s ≠ "" := by
  intro he; subst he; exact absurd h (by decide)

lemma plain_prompt_ne_empty (sn sc um : String) : plain_prompt sn sc um ≠ "" := by
  apply string_ne_empty_of_length
  have h1 : 0 < ("Ты помощник по D&D для новичков.\n\n    КОНТЕКСТ ТЕКУЩЕГО РАЗДЕЛА \"").length := by
    decide
  simp [plain_prompt, String.length_append]
  omega

/-! ## C3: the Language Model Client's three-way failure taxonomy -/

/-- C3: for every prompt outcome, the client returns the trimmed payload on
status 200, the fixed connectivity apology on a connection error, a friendly
string embedding the raw error text on any other exception, and `None` on a
non-200 status; in the `None` case the dispatcher delivers its own generic
"could not get a response" message. -/
theorem C3_llm_failure_taxonomy (payload e : String) (t : Transport) (status : Nat) :
    llm_complete (.httpResponse 200 payload) = some (pyStrip payload) ∧
    (status ≠ 200 → llm_complete (.httpResponse status payload) = none) ∧
    llm_complete .connectionError = some connectionErrorMessage ∧
    llm_complete (.otherError e) = some (otherErrorMessage e) ∧
    deliver_response t none = [Sent.plain noResponseMessage] := by
  refine ⟨by simp [llm_complete], fun h => by simp [llm_complete, h], rfl, rfl, rfl⟩

theorem C3_llm_failure_taxonomy_witness :
    (500 : Nat) ≠ 200 ∧ llm_complete (.httpResponse 500 "ignored") = none :=
  ⟨by decide,
    (C3_llm_failure_taxonomy "ignored" "e" ⟨fun _ => false, fun _ => false⟩ 500).2.1 (by decide)⟩

/-! ## C5: the Session Store default -/

/-- C5: for every user ID with no stored entry, `get_current_section`
returns the default pair `("rules", RULES_TEXT_PART1 ++ RULES_TEXT_PART2 ++
RULES_TEXT_PART3)`, and (being a total function) it never fails. -/
theorem C5_default_session (p1 p2 p3 : String) (store : SessionStore) (uid : Nat)
    (h : store uid = none) :
    get_current_section p1 p2 p3 store uid = ("rules", p1 ++ p2 ++ p3) := by
  simp [get_current_section, h]

theorem C5_default_session_witness :
    emptyStore 7 = none ∧
    get_current_section "A" "B" "C" emptyStore 7 = ("rules", "A" ++ "B" ++ "C") :=
  ⟨rfl, C5_default_session "A" "B" "C" emptyStore 7 rfl⟩

/-! ## C6: last-write-wins, no cross-user interference -/

lemma apply_sets_nil (store : SessionStore) (uid : Nat) :
    apply_sets store uid [] = store := rfl

lemma apply_sets_cons (store : SessionStore) (uid : Nat) (c : String × String)
    (cs : List (String × String)) :
    apply_sets store uid (c :: cs) = apply_sets (set_section store uid c.1 c.2) uid cs := rfl

lemma apply_sets_self (uid : Nat) :
    ∀ (calls : List (String × String)) (c : String × String) (store : SessionStore),
      calls.getLast? = some c →
      apply_sets store uid calls uid = some ⟨c.1, c.2⟩ := by
  intro calls
  induction calls with
  | nil => intro c store h; simp at h
  | cons a cs ih =>
    intro c store h
    rw [apply_sets_cons]
    cases cs with
    | nil =>
      simp only [List.getLast?_singleton, Option.some.injEq] at h
      subst h
      simp [apply_sets_nil, set_section]
    | cons d ds =>
      rw [List.getLast?_cons_cons] at h
      exact ih c (set_section store uid a.1 a.2) h

lemma apply_sets_other (uid : Nat) :
    ∀ (calls : List (String × String)) (store : SessionStore) (v : Nat), v ≠ uid →
      apply_sets store uid calls v = store v := by
  intro calls
  induction calls with
  | nil => intro store v _; rfl
  | cons c cs ih =>
    intro store v hv
    rw [apply_sets_cons, ih _ v hv, set_section, if_neg hv]

/-- C6: after any non-empty sequence of `set_section` calls for one user
(last element `c`), `get_current_section` returns exactly the pair of the
last call (full overwrite, no merging), and every other user's entry is
unchanged. -/
theorem C6_last_write_wins (p1 p2 p3 : String) (store : SessionStore) (uid : Nat)
    (calls : List (String × String)) (c : String × String)
    (h : calls.getLast? = some c) :
    get_current_section p1 p2 p3 (apply_sets store uid calls) uid = c ∧
    ∀ v, v ≠ uid → apply_sets store uid calls v = store v := by
  constructor
  · rw [get_current_section, apply_sets_self uid calls c store h]
  · intro v hv; exact apply_sets_other uid calls store v hv

theorem C6_last_write_wins_witness :
    get_current_section "A" "B" "C"
        (apply_sets emptyStore 1 [("rules", "r"), ("races", "")]) 1 = ("races", "") ∧
    apply_sets emptyStore 1 [("rules", "r"), ("races", "")] 2 = emptyStore 2 := by
  have h := C6_last_write_wins "A" "B" "C" emptyStore 1 [("rules", "r"), ("races", "")]
      ("races", "") (by simp)
  exact ⟨h.1, h.2 2 (by decide)⟩

/-! ## C9: formatted delivery, one retry, final apology -/

/-- C9: for every present (truthy) generation result, delivery first
attempts the rich-formatted send; if that raises it retries exactly once
with the unformatted text truncated to at most 4000 units; if the retry
also raises it delivers the fixed generic apology. -/
theorem C9_delivery_retry (t : Transport) (r : String) (h : r ≠ "") :
    (deliver_response t (some r)).head? = some (Sent.formatted r) ∧
    (t.formattedFails r = false → deliver_response t (some r) = [Sent.formatted r]) ∧
    (t.formattedFails r = true → t.plainFails (truncatedResponse r) = false →
      deliver_response t (some r)
        = [Sent.formatted r, Sent.plain (truncatedResponse r)]) ∧
    (t.formattedFails r = true → t.plainFails (truncatedResponse r) = true →
      deliver_response t (some r)
        = [Sent.formatted r, Sent.plain (truncatedResponse r), Sent.plain deliveryApology]) ∧
    (truncatedResponse r).length ≤ 4000 := by
  refine ⟨?_, ?_, ?_, ?_, ?_⟩
  · rcases hf : t.formattedFails r with _ | _ <;>
      rcases hp : t.plainFails (truncatedResponse r) with _ | _ <;>
      simp [deliver_response, h, hf, hp]
  · intro hf; simp [deliver_response, h, hf]
  · intro hf hp; simp [deliver_response, h, hf, hp]
  · intro hf hp; simp [deliver_response, h, hf, hp]
  · unfold truncatedResponse
    split
    · rw [pyTake, length_data]
      simp [List.length_take]
    · omega

theorem C9_delivery_retry_witness :
    deliver_response ⟨fun _ => true, fun _ => true⟩ (some "hi")
      = [Sent.formatted "hi", Sent.plain "hi", Sent.plain deliveryApology] := by
  have h := C9_delivery_retry ⟨fun _ => true, fun _ => true⟩ "hi" (by decide)
  have := h.2.2.2.1 rfl rfl
  simpa [truncatedResponse] using this

/-! ## C10: an all-whitespace 200 payload is treated like an absent result -/

/-- C10: when the generation endpoint answers 200 with a payload that trims
to the empty string, the client returns `some ""`, and the dispatcher treats
that exactly like `none`: it delivers the generic "could not get a
response" message. -/
theorem C10_empty_payload (payload : String) (t : Transport)
    (h : pyStrip payload = "") :
    llm_complete (.httpResponse 200 payload) = some "" ∧
    deliver_response t (some "") = deliver_response t none ∧
    deliver_response t (some "") = [Sent.plain noResponseMessage] := by
  refine ⟨by simp [llm_complete, h], rfl, rfl⟩

theorem C10_empty_payload_witness :
    pyStrip " \t\n " = "" ∧
    llm_complete (.httpResponse 200 " \t\n ") = some "" := by
  have h : pyStrip " \t\n " = "" := by decide
  exact ⟨h, (C10_empty_payload " \t\n " ⟨fun _ => false, fun _ => false⟩ h).1⟩

/-! ## C4: `use_rag` is membership in {races, spells, classes} -/

/-- C4: for every inbound message the dispatcher computes `use_rag` as
`section_name in ["races", "spells", "classes"]`, and for an active
section outside that set the retrieval client is never invoked and the
grounding is empty (the plain template is assembled). -/
theorem C4_use_rag_membership (p1 p2 p3 : String) (store : SessionStore)
    (env : RagEnv) (server : String → GenOutcome) (t : Transport)
    (uid : Nat) (msg : String) :
    (handle_message p1 p2 p3 store env server t uid msg).1.ragInvoked
      = ragSections.contains (get_current_section p1 p2 p3 store uid).1 ∧
    ((get_current_section p1 p2 p3 store uid).1 ∉ ragSections →
      (handle_message p1 p2 p3 store env server t uid msg).1.ragInvoked = false ∧
      (handle_message p1 p2 p3 store env server t uid msg).1.prompt
        = plain_prompt (get_current_section p1 p2 p3 store uid).1
            (get_current_section p1 p2 p3 store uid).2 msg) := by
  constructor
  · rfl
  · intro hmem
    have hc : ragSections.contains (get_current_section p1 p2 p3 store uid).1 = false := by
      simp [List.elem_eq_mem, hmem]
    constructor
    · show ragSections.contains (get_current_section p1 p2 p3 store uid).1 = false
      exact hc
    · show (generate_response env server msg _ _
          (ragSections.contains (get_current_section p1 p2 p3 store uid).1) _).prompt = _
      rw [hc]
      simp [generate_response]

theorem C4_use_rag_membership_witness :
    ("rules" : String) ∉ ragSections ∧
    (handle_message "A" "B" "C" emptyStore ⟨true, none, none, none⟩
        (fun _ => GenOutcome.connectionError) ⟨fun _ => false, fun _ => false⟩
        0 "Что такое спасбросок?").1.ragInvoked = false := by
  have hmem : ("rules" : String) ∉ ragSections := by decide
  exact ⟨hmem,
    ((C4_use_rag_membership "A" "B" "C" emptyStore ⟨true, none, none, none⟩
        (fun _ => GenOutcome.connectionError) ⟨fun _ => false, fun _ => false⟩
        0 "Что такое спасбросок?").2 hmem).1⟩

/-! ## C2: retrieval never raises past its boundary; empty grounding falls
back to a non-empty plain prompt -/

/-- C2: the retrieval operation converts every escaping internal exception
to an empty result at its `try/except` boundary; an uninitialized domain
client, an empty collection, an embedding failure, or both similarity
queries raising all yield the empty context; and with empty grounding the
dispatcher still assembles the (non-empty) plain-template prompt. -/
theorem C2_retrieval_never_raises (env : RagEnv) (q st : String) :
    ((retrieveDocsExc env q st).isOk = false → retrieve_rag_context env q st = "") ∧
    (resolveClient env st = none → retrieve_rag_context env q st = "") ∧
    (∀ d c, resolveClient env st = some d → resolveCollection d = .ok c →
      c.countRaises = false → c.contents = [] → retrieve_rag_context env q st = "") ∧
    (env.embedOk = false → retrieve_rag_context env q st = "") ∧
    (∀ d c, resolveClient env st = some d → resolveCollection d = .ok c →
      (c.queryTexts (nResults (if c.countRaises then 0 else c.contents.length))).isOk = false →
      (c.queryEmbeddings (nResults (if c.countRaises then 0 else c.contents.length))).isOk = false →
      retrieve_rag_context env q st = "") ∧
    (∀ server sn sc, retrieve_rag_context env q st = "" →
      (generate_response env server q sn sc true st).prompt = plain_prompt sn sc q ∧
      plain_prompt sn sc q ≠ "") := by
  refine ⟨?_, ?_, ?_, ?_, ?_, ?_⟩
  · intro h
    unfold retrieve_rag_context retrieve_rag_docs
    cases hx : retrieveDocsExc env q st with
    | ok ds => rw [hx] at h; simp [Except.isOk, Except.toBool] at h
    | error e => rfl
  · intro h
    cases hemb : env.embedOk with
    | false => simp [retrieve_rag_context, retrieve_rag_docs, retrieveDocsExc, hemb, joinSep]
    | true => simp [retrieve_rag_context, retrieve_rag_docs, retrieveDocsExc, hemb, h, joinSep]
  · intro d c hd hc hcr hempty
    cases hemb : env.embedOk with
    | false => simp [retrieve_rag_context, retrieve_rag_docs, retrieveDocsExc, hemb, joinSep]
    | true =>
      simp [retrieve_rag_context, retrieve_rag_docs, retrieveDocsExc, hemb, hd, hc, hcr,
        hempty, joinSep]
  · intro h
    simp [retrieve_rag_context, retrieve_rag_docs, retrieveDocsExc, h, joinSep]
  · intro d c hd hc hqt hqe
    cases hemb : env.embedOk with
    | false => simp [retrieve_rag_context, retrieve_rag_docs, retrieveDocsExc, hemb, joinSep]
    | true =>
      cases hqt2 : c.queryTexts (nResults (if c.countRaises then 0 else c.contents.length)) with
      | ok r => rw [hqt2] at hqt; simp [Except.isOk, Except.toBool] at hqt
      | error e1 =>
        cases hqe2 : c.queryEmbeddings (nResults (if c.countRaises then 0 else c.contents.length)) with
        | ok r => rw [hqe2] at hqe; simp [Except.isOk, Except.toBool] at hqe
        | error e2 =>
          by_cases h0 : (c.countRaises = false && c.contents.length = 0) = true
          · rw [Bool.and_eq_true, decide_eq_true_eq, decide_eq_true_eq] at h0
            have hnil : c.contents = [] := List.length_eq_zero.mp h0.2
            simp [retrieve_rag_context, retrieve_rag_docs, retrieveDocsExc, hemb, hd, hc,
              h0.1, hnil, joinSep]
          · rw [Bool.not_eq_true] at h0
            simp [retrieve_rag_context, retrieve_rag_docs, retrieveDocsExc, requestedResults,
              hemb, hd, hc, h0, hqt2, hqe2, joinSep]
  · intro server sn sc h
    refine ⟨?_, plain_prompt_ne_empty sn sc q⟩
    simp [generate_response, h]

/-! ## Concrete retrieval environments (used as witnesses) -/

/-- A collection with no documents. -/
def collEmpty : Collection := ⟨[], false, fun _ => .ok none, fun _ => .ok none⟩

/-- A collection whose similarity queries always raise. -/
def collBadQueries : Collection :=
  ⟨["Эльф"], false, fun _ => .error .exn, fun _ => .error .exn⟩

/-- A domain whose collection resolution always raises (even
`get_or_create_collection`). -/
def dbBroken : DomainDb := ⟨.error .exn, .error .exn, .error .exn⟩

/-- A domain with an empty primary collection. -/
def dbEmpty : DomainDb := ⟨.ok collEmpty, .error .exn, .error .exn⟩

/-- A domain whose collection rejects every similarity query. -/
def dbBadQueries : DomainDb := ⟨.ok collBadQueries, .error .exn, .error .exn⟩

/-- The store-side similarity ranking of `collGood`'s three documents. -/
def rankingGood : List String := ["Гном", "Эльф", "Полурослик"]

/-- A healthy three-document collection answering `query_texts` with the
top `n_results` of its ranking. -/
def collGood : Collection :=
  ⟨["Эльф", "Гном", "Полурослик"], false,
    fun n => .ok (some [rankingGood.take n]), fun _ => .error .exn⟩

/-- A healthy races domain. -/
def dbGood : DomainDb := ⟨.ok collGood, .error .exn, .error .exn⟩

/-- Environment with a healthy races index. -/
def envGood : RagEnv := ⟨true, some dbGood, none, none⟩

theorem C2_retrieval_never_raises_witness :
    (retrieveDocsExc ⟨true, some dbBroken, none, none⟩ "q" "races").isOk = false ∧
    retrieve_rag_context ⟨true, some dbBroken, none, none⟩ "q" "races" = "" ∧
    retrieve_rag_context ⟨true, none, none, none⟩ "q" "races" = "" ∧
    retrieve_rag_context ⟨true, some dbEmpty, none, none⟩ "q" "races" = "" ∧
    retrieve_rag_context ⟨false, some dbGood, none, none⟩ "q" "races" = "" ∧
    retrieve_rag_context ⟨true, some dbBadQueries, none, none⟩ "q" "races" = "" ∧
    (generate_response ⟨true, none, none, none⟩ (fun _ => GenOutcome.connectionError)
        "q" "races" "c" true "races").prompt = plain_prompt "races" "c" "q" := by
  have hbroken : (retrieveDocsExc ⟨true, some dbBroken, none, none⟩ "q" "races").isOk = false := rfl
  have h1 := (C2_retrieval_never_raises ⟨true, some dbBroken, none, none⟩ "q" "races").1 hbroken
  have h2 := (C2_retrieval_never_raises ⟨true, none, none, none⟩ "q" "races").2.1 rfl
  have h3 := (C2_retrieval_never_raises ⟨true, some dbEmpty, none, none⟩ "q" "races").2.2.1
    dbEmpty collEmpty rfl rfl rfl rfl
  have h4 := (C2_retrieval_never_raises ⟨false, some dbGood, none, none⟩ "q" "races").2.2.2.1 rfl
  have h5 := (C2_retrieval_never_raises ⟨true, some dbBadQueries, none, none⟩ "q" "races").2.2.2.2.1
    dbBadQueries collBadQueries rfl rfl rfl rfl
  have h6 := ((C2_retrieval_never_raises ⟨true, none, none, none⟩ "q" "races").2.2.2.2.2
    (fun _ => GenOutcome.connectionError) "races" "c" h2).1
  exact ⟨hbroken, h1, h2, h3, h4, h5, h6⟩

/-! ## C8: top-K cap at 5 -/

/-- A three-document collection whose `count()` raises; the store answers a
query for `n` results with `min n 3` documents, as a real store would. -/
def collCountRaises : Collection :=
  ⟨["Эльф", "Гном", "Полурослик"], true,
    fun n => .ok (some [List.replicate (min n 3) "Документ"]), fun _ => .error .exn⟩

/-- A races domain whose collection's `count()` raises. -/
def dbCountRaises : DomainDb := ⟨.ok collCountRaises, .error .exn, .error .exn⟩

/-- Environment with a races index whose `count()` raises. -/
def envCountRaises : RagEnv := ⟨true, some dbCountRaises, none, none⟩

/-- C8 (counterexample): on the ollama.py:169-176 path where
`collection.count()` raises, the exception is swallowed, `count` stays 0,
and the similarity query is still issued with `n_results = 5` — here
against a collection holding only 3 documents, so the requested number is
not "exactly the collection's count".  The query does run: the store
answers and 3 documents come back. -/
theorem C8_topk_cap_counterexample :
    collCountRaises.contents.length = 3 ∧
    collCountRaises.contents.length < 5 ∧
    requestedResults collCountRaises = 5 ∧
    requestedResults collCountRaises ≠ collCountRaises.contents.length ∧
    retrieve_rag_docs envCountRaises "Кто такие эльфы?" "races"
      = List.replicate 3 "Документ" := by
  refine ⟨rfl, by decide, rfl, by decide, by decide⟩

/-- C8 (amended): the requested `n_results` is always capped at 5; on the
normal path where `count()` succeeds with a positive count the requested
number is exactly `min 5 count`, and for a store answering with the top
`n_results` of its ranking (all documents non-empty) exactly that many
documents are returned — with fewer than 5 stored documents, all of them.
But on the path where `count()` raises, the swallowed exception leaves
`count = 0` and the code requests the fixed 5 even when the collection
holds fewer than 5 documents. -/
theorem C8_topk_cap_amended (env : RagEnv) (q st : String) (d : DomainDb) (c : Collection)
    (ranking : List String)
    (hemb : env.embedOk = true)
    (hd : resolveClient env st = some d)
    (hc : resolveCollection d = .ok c) :
    requestedResults c ≤ 5 ∧
    (c.countRaises = true → requestedResults c = 5) ∧
    (c.countRaises = false → 0 < c.contents.length →
      requestedResults c = min 5 c.contents.length) ∧
    (c.countRaises = false → 0 < c.contents.length →
      ranking.length = c.contents.length →
      (∀ doc ∈ ranking, doc ≠ "") →
      c.queryTexts (requestedResults c) = .ok (some [ranking.take (requestedResults c)]) →
      (retrieve_rag_docs env q st).length = min 5 c.contents.length ∧
      (c.contents.length < 5 → (retrieve_rag_docs env q st).length = c.contents.length)) := by
  have hcap : requestedResults c ≤ 5 := by
    unfold requestedResults nResults
    split <;> split <;> first
      | exact Nat.min_le_left 5 _
      | exact Nat.le_refl 5
  refine ⟨hcap, ?_, ?_, ?_⟩
  · intro hcr
    unfold requestedResults
    rw [hcr]
    rfl
  · intro hcr hpos
    unfold requestedResults
    rw [hcr]
    show nResults c.contents.length = min 5 c.contents.length
    unfold nResults
    rw [if_pos hpos]
  · intro hcr hpos hrank hne hq
    have hreq : requestedResults c = nResults c.contents.length := by
      unfold requestedResults
      rw [hcr]
      rfl
    have hn : nResults c.contents.length = min 5 c.contents.length := by
      unfold nResults; rw [if_pos hpos]
    have hlen0 : c.contents.length ≠ 0 := Nat.pos_iff_ne_zero.mp hpos
    have hdocs : retrieve_rag_docs env q st = ranking.take (requestedResults c) := by
      unfold retrieve_rag_docs retrieveDocsExc
      simp [hemb, hd, hc, hcr, hlen0, hq, formatDocs]
      intro a ha
      simpa using hne a (List.take_subset _ _ ha)
    have hlen : (retrieve_rag_docs env q st).length = min 5 c.contents.length := by
      rw [hdocs, List.length_take, hreq, hn, hrank]
      exact Nat.min_eq_left (Nat.min_le_right 5 c.contents.length)
    exact ⟨hlen, fun hlt => by rw [hlen]; exact Nat.min_eq_right (Nat.le_of_lt hlt)⟩

theorem C8_topk_cap_amended_witness :
    (retrieve_rag_docs envGood "Кто такие эльфы?" "races").length = 3 ∧
    requestedResults collGood = 3 := by
  have h := C8_topk_cap_amended envGood "Кто такие эльфы?" "races" dbGood collGood rankingGood
    rfl rfl rfl
  have h4 := h.2.2.2 rfl (by decide) (by decide) (by decide) rfl
  have h3 : collGood.contents.length = 3 := rfl
  have hlt := h4.2 (by rw [h3]; decide)
  rw [h3] at hlt
  have h31 := h.2.2.1 rfl (by decide)
  refine ⟨hlt, ?_⟩
  rw [h31, h3]
  decide

/-! ## C1: template choice and the instruction blocks -/

/-- C1 (counterexample): with a healthy races index the grounding is
non-empty, so the grounded template is used — yet the assembled prompt
does not contain the canonical section name `/stats` anywhere, while the
plain-template prompt does; and the two templates' instruction blocks are
not identical.  This refutes the claim's "the fixed instruction block of
both templates is identical and in both cases contains the canonical list
of section names". -/
theorem C1_prompt_assembly_counterexample :
    retrieve_rag_context envGood "Кто такие эльфы?" "races" ≠ "" ∧
    strContains (generate_response envGood (fun _ => GenOutcome.connectionError)
        "Кто такие эльфы?" "races" "" true "races").prompt "/stats" = false ∧
    strContains (plain_prompt "races" "" "Кто такие эльфы?") "/stats" = true ∧
    groundedInstructions ≠ plainInstructions := by
  refine ⟨by decide, by decide, by decide, by decide⟩

/-- C1 (amended): the grounded template is used exactly when `use_rag`
holds and the retrieved grounding text is non-empty (grounding documents
first, then static section content, then instructions, then the user
question — the shape of `grounded_prompt`), otherwise the plain template;
but the two templates' instruction blocks are not identical, and the
canonical list of section names appears only in the plain template's
block — the grounded block contains none of the names. -/
theorem C1_prompt_assembly (env : RagEnv) (server : String → GenOutcome)
    (um sn sc rst : String) :
    (retrieve_rag_context env um rst ≠ "" →
      (generate_response env server um sn sc true rst).prompt
        = grounded_prompt sn (retrieve_rag_context env um rst) sc um) ∧
    (retrieve_rag_context env um rst = "" →
      (generate_response env server um sn sc true rst).prompt = plain_prompt sn sc um) ∧
    ((generate_response env server um sn sc false rst).prompt = plain_prompt sn sc um) ∧
    groundedInstructions ≠ plainInstructions ∧
    (∀ nm ∈ canonicalSectionNames, strContains plainInstructions nm = true) ∧
    (∀ nm ∈ canonicalSectionNames, strContains groundedInstructions nm = false) := by
  refine ⟨?_, ?_, ?_, by decide, by decide, by decide⟩
  · intro h; simp [generate_response, h]
  · intro h; simp [generate_response, h]
  · simp [generate_response]

theorem C1_prompt_assembly_witness :
    (generate_response envGood (fun _ => GenOutcome.connectionError)
        "Кто такие эльфы?" "races" "" true "races").prompt
      = grounded_prompt "races"
          (retrieve_rag_context envGood "Кто такие эльфы?" "races") "" "Кто такие эльфы?" ∧
    (generate_response ⟨true, none, none, none⟩ (fun _ => GenOutcome.connectionError)
        "q" "rules" "c" true "rules").prompt = plain_prompt "rules" "c" "q" :=
  ⟨(C1_prompt_assembly envGood (fun _ => GenOutcome.connectionError)
      "Кто такие эльфы?" "races" "" "races").1 (by decide),
    (C1_prompt_assembly ⟨true, none, none, none⟩ (fun _ => GenOutcome.connectionError)
      "q" "rules" "c" "rules").2.1 (by decide)⟩

/-! ## Split/join lemmas for `split_message` -/

lemma splitOnNl_ne_nil : ∀ l : List Char, splitOnNl l ≠ [] := by
  intro l
  induction l with
  | nil => simp [splitOnNl]
  | cons c cs ih =>
    by_cases h : c = '\n'
    · simp [splitOnNl, h]
    · simp only [splitOnNl, if_neg h]
      cases hs : splitOnNl cs with
      | nil => simp
      | cons x xs => simp

/-- The `'\n'`-interleaved flattening of a line list, tail form. -/
def joinTailL : List (List Char) → List Char
  | [] => []
  | y :: ys => '\n' :: (y ++ joinTailL ys)

/-- The `'\n'`-interleaved flattening of a line list. -/
def joinNlL : List (List Char) → List Char
  | [] => []
  | x :: xs => x ++ joinTailL xs

lemma joinNlL_splitOnNl : ∀ l : List Char, joinNlL (splitOnNl l) = l := by
  intro l
  induction l with
  | nil => rfl
  | cons c cs ih =>
    by_cases h : c = '\n'
    · subst h
      simp only [splitOnNl, if_pos rfl]
      cases hs : splitOnNl cs with
      | nil => exact absurd hs (splitOnNl_ne_nil cs)
      | cons x xs =>
        rw [hs] at ih
        show joinNlL ([] :: x :: xs) = '\n' :: cs
        rw [← ih]
        rfl
    · simp only [splitOnNl, if_neg h]
      cases hs : splitOnNl cs with
      | nil => exact absurd hs (splitOnNl_ne_nil cs)
      | cons x xs =>
        rw [hs] at ih
        show joinNlL ((c :: x) :: xs) = c :: cs
        rw [← ih]
        rfl

/-- The `"\n" ++ line` tail of a newline join, at the `String` level. -/
def nlTail : List String → String
  | [] => ""
  | l :: ls => "\n" ++ l ++ nlTail ls

lemma foldl_nl (xs : List String) :
    ∀ a : String, xs.foldl (fun acc d => acc ++ "\n" ++ d) a = a ++ nlTail xs := by
  induction xs with
  | nil => intro a; exact (String.append_empty a).symm
  | cons x xs ih =>
    intro a
    show xs.foldl _ (a ++ "\n" ++ x) = a ++ nlTail (x :: xs)
    rw [ih (a ++ "\n" ++ x)]
    show a ++ "\n" ++ x ++ nlTail xs = a ++ ("\n" ++ x ++ nlTail xs)
    simp [String.append_assoc]

lemma joinSep_nl_cons (x : String) (xs : List String) :
    joinSep "\n" (x :: xs) = x ++ nlTail xs := foldl_nl xs x

lemma nlTail_data : ∀ xs : List (List Char),
    (nlTail (xs.map String.mk)).data = joinTailL xs := by
  intro xs
  induction xs with
  | nil => rfl
  | cons x xs ih =>
    show ("\n" ++ String.mk x ++ nlTail (xs.map String.mk)).data = '\n' :: (x ++ joinTailL xs)
    rw [String.data_append, String.data_append, ih]
    rfl

lemma joinSep_pySplitLines (s : String) : joinSep "\n" (pySplitLines s) = s := by
  unfold pySplitLines
  cases hs : splitOnNl s.data with
  | nil => exact absurd hs (splitOnNl_ne_nil s.data)
  | cons x xs =>
    apply data_inj
    rw [List.map_cons, joinSep_nl_cons, String.data_append, nlTail_data]
    have h := joinNlL_splitOnNl s.data
    rw [hs] at h
    exact h

lemma joinSep_snoc (sep : String) (xs : List String) (w : String) :
    joinSep sep (xs ++ [w]) = (if xs = [] then w else joinSep sep xs ++ sep ++ w) := by
  cases xs with
  | nil => rfl
  | cons x l =>
    rw [if_neg (List.cons_ne_nil x l)]
    show ((l ++ [w]).foldl (fun acc d => acc ++ sep ++ d) x)
      = (l.foldl (fun acc d => acc ++ sep ++ d) x) ++ sep ++ w
    rw [List.foldl_append]
    rfl

/-- Invariant of the `split_message` accumulation loop: starting from a
non-empty, in-bound `current`, processing stripped, non-empty, in-bound
lines keeps every emitted part within the limit and appends the lines (in
order, newline-separated) to the accumulated join. -/
lemma splitFold_spec (limit : Nat) :
    ∀ (lines : List String) (parts : List String) (current : String),
      (∀ l ∈ lines, pyRstrip l = l ∧ l ≠ "" ∧ l.length ≤ limit) →
      current ≠ "" → current.length ≤ limit →
      (∀ p ∈ parts, p.length ≤ limit) →
      ((lines.foldl (splitStep limit) (parts, current)).2 ≠ "" ∧
        (lines.foldl (splitStep limit) (parts, current)).2.length ≤ limit ∧
        (∀ p ∈ (lines.foldl (splitStep limit) (parts, current)).1, p.length ≤ limit) ∧
        joinSep "\n" ((lines.foldl (splitStep limit) (parts, current)).1
            ++ [(lines.foldl (splitStep limit) (parts, current)).2])
          = joinSep "\n" (parts ++ [current]) ++ nlTail lines) := by
  intro lines
  induction lines with
  | nil =>
    intro parts current _ hcur hclen hparts
    refine ⟨hcur, hclen, hparts, ?_⟩
    rw [nlTail]
    exact (String.append_empty _).symm
  | cons l ls ih =>
    intro parts current hl hcur hclen hparts
    obtain ⟨hrs, hne, hlen⟩ := hl l (List.mem_cons_self l ls)
    have hl' : ∀ x ∈ ls, pyRstrip x = x ∧ x ≠ "" ∧ x.length ≤ limit :=
      fun x hx => hl x (List.mem_cons_of_mem l hx)
    rw [List.foldl_cons]
    have hnl : ("\n" : String).length = 1 := rfl
    by_cases hfit : current.length + (l.length + 1) ≤ limit
    · have hstep : splitStep limit (parts, current) l = (parts, current ++ "\n" ++ l) := by
        unfold splitStep
        simp [hrs, hcur, hfit]
      rw [hstep]
      have hcur' : current ++ "\n" ++ l ≠ "" := by
        apply string_ne_empty_of_length
        rw [String.length_append, String.length_append, hnl]
        omega
      have hclen' : (current ++ "\n" ++ l).length ≤ limit := by
        rw [String.length_append, String.length_append, hnl]
        omega
      have hmain := ih parts (current ++ "\n" ++ l) hl' hcur' hclen' hparts
      refine ⟨hmain.1, hmain.2.1, hmain.2.2.1, ?_⟩
      rw [hmain.2.2.2]
      have hkey : joinSep "\n" (parts ++ [current ++ "\n" ++ l])
          = joinSep "\n" (parts ++ [current]) ++ ("\n" ++ l) := by
        rw [joinSep_snoc, joinSep_snoc]
        by_cases hp : parts = []
        · rw [if_pos hp, if_pos hp, String.append_assoc]
        · rw [if_neg hp, if_neg hp]
          simp [String.append_assoc]
      rw [hkey, nlTail]
      simp [String.append_assoc]
    · have hstep : splitStep limit (parts, current) l = (parts ++ [current], l) := by
        unfold splitStep
        simp [hrs, hcur, hfit]
      rw [hstep]
      have hparts' : ∀ p ∈ parts ++ [current], p.length ≤ limit := by
        intro p hp
        rcases List.mem_append.mp hp with h | h
        · exact hparts p h
        · rw [List.mem_singleton.mp h]; exact hclen
      have hmain := ih (parts ++ [current]) l hl' hne hlen hparts'
      refine ⟨hmain.1, hmain.2.1, hmain.2.2.1, ?_⟩
      rw [hmain.2.2.2]
      have hkey : joinSep "\n" ((parts ++ [current]) ++ [l])
          = joinSep "\n" (parts ++ [current]) ++ ("\n" ++ l) := by
        rw [joinSep_snoc, if_neg (by simp), String.append_assoc]
      rw [hkey, nlTail]
      simp [String.append_assoc]

/-- C7 (amended): when every line of the text is non-empty, carries no
trailing whitespace and fits the limit, `split_message` splits only at
line boundaries into segments each of length at most the limit (4000 at
the source's default, not 4096), and joining the segments with newlines
reproduces the text — all segments, in the original order. -/
theorem C7_split_message_bounded (text : String) (limit : Nat)
    (h : ∀ l ∈ pySplitLines text, pyRstrip l = l ∧ l ≠ "" ∧ l.length ≤ limit) :
    (∀ p ∈ split_message text limit, p.length ≤ limit) ∧
    joinSep "\n" (split_message text limit) = text := by
  unfold split_message
  by_cases hsmall : text.length ≤ limit
  · rw [if_pos hsmall]
    constructor
    · intro p hp; rw [List.mem_singleton.mp hp]; exact hsmall
    · rfl
  · rw [if_neg hsmall]
    obtain ⟨l1, ls, hls⟩ : ∃ x xs, pySplitLines text = x :: xs := by
      cases hsp : pySplitLines text with
      | nil =>
        exfalso
        exact splitOnNl_ne_nil text.data (List.map_eq_nil_iff.mp hsp)
      | cons x xs => exact ⟨x, xs, rfl⟩
    rw [hls, List.foldl_cons]
    obtain ⟨hrs1, hne1, hlen1⟩ := h l1 (hls ▸ List.mem_cons_self l1 ls)
    have h' : ∀ x ∈ ls, pyRstrip x = x ∧ x ≠ "" ∧ x.length ≤ limit :=
      fun x hx => h x (hls ▸ List.mem_cons_of_mem l1 hx)
    have hstep1 : splitStep limit ([], "") l1 = ([], l1) := by
      unfold splitStep
      simp [hrs1, hlen1]
    rw [hstep1]
    have hmain := splitFold_spec limit ls [] l1 h' hne1 hlen1 (by intro p hp; simp at hp)
    unfold finalizeSplit
    rw [if_neg hmain.1]
    constructor
    · intro p hp
      rcases List.mem_append.mp hp with hp | hp
      · exact hmain.2.2.1 p hp
      · rw [List.mem_singleton.mp hp]; exact hmain.2.1
    · rw [hmain.2.2.2]
      have h1 : joinSep "\n" (([] : List String) ++ [l1]) = l1 := rfl
      rw [h1, ← joinSep_nl_cons, ← hls, joinSep_pySplitLines]

theorem C7_split_message_bounded_witness :
    (∀ l ∈ pySplitLines "аб\nвг", pyRstrip l = l ∧ l ≠ "" ∧ l.length ≤ 2) ∧
    split_message "аб\nвг" 2 = ["аб", "вг"] ∧
    joinSep "\n" (split_message "аб\nвг" 2) = "аб\nвг" := by
  have hlines : ∀ l ∈ pySplitLines "аб\nвг", pyRstrip l = l ∧ l ≠ "" ∧ l.length ≤ 2 := by
    decide
  refine ⟨hlines, by decide, (C7_split_message_bounded "аб\nвг" 2 hlines).2⟩

/-! ## C7 counterexample: a single over-long line is not split -/

lemma dropWhile_replicate_a (n : Nat) :
    (List.replicate n 'a').dropWhile isPySpace = List.replicate n 'a' := by
  cases n with
  | zero => rfl
  | succ m =>
    have ha : isPySpace 'a' = false := by decide
    rw [List.replicate_succ]
    simp [List.dropWhile_cons, ha]

lemma rstripL_replicate_a (n : Nat) :
    rstripL (List.replicate n 'a') = List.replicate n 'a' := by
  unfold rstripL
  rw [List.reverse_replicate, dropWhile_replicate_a, List.reverse_replicate]

lemma splitOnNl_replicate_a : ∀ n : Nat,
    splitOnNl (List.replicate n 'a') = [List.replicate n 'a'] := by
  intro n
  induction n with
  | zero => rfl
  | succ m ih =>
    rw [List.replicate_succ]
    show splitOnNl ('a' :: List.replicate m 'a') = _
    simp only [splitOnNl, if_neg (by decide : ¬ ('a' = '\n')), ih]

/-- A 4097-character message consisting of one single line. -/
def longLine : String := ⟨List.replicate 4097 'a'⟩

/-- C7 (counterexample): for the 4097-unit single-line text,
`split_message` at its default limit 4000 returns the text as one
unsplit segment of length 4097 > 4096 — so the output is not bounded by
the 4096-unit transport limit (nor by the 4000 default). -/
theorem C7_split_message_counterexample :
    split_message longLine 4000 = [longLine] ∧ 4096 < longLine.length := by
  have hlen : longLine.length = 4097 := by
    show (List.replicate 4097 'a').length = 4097
    rw [List.length_replicate]
  have hne : longLine ≠ "" := string_ne_empty_of_length (by rw [hlen]; omega)
  have hsplit : pySplitLines longLine = [longLine] := by
    show (splitOnNl (List.replicate 4097 'a')).map String.mk = [longLine]
    rw [splitOnNl_replicate_a]
    rfl
  have hrstrip : pyRstrip longLine = longLine := by
    show (⟨rstripL (List.replicate 4097 'a')⟩ : String) = longLine
    rw [rstripL_replicate_a]
    rfl
  constructor
  · unfold split_message
    rw [if_neg (by rw [hlen]; omega)]
    rw [hsplit, List.foldl_cons, List.foldl_nil]
    have hstep : splitStep 4000 ([], "") longLine = ([], longLine) := by
      unfold splitStep
      simp [hrstrip, hlen]
    rw [hstep]
    unfold finalizeSplit
    rw [if_neg hne]
    rfl
  · rw [hlen]; omega
